import Mathlib

/-!
# conos: capability probes and thread policy (`src/checkfunctions.cpp`, `src/include/largeVis.h`)

A shallow embedding of the two source files.

* The preprocessor state and the widths of the Armadillo word types, which the
  sources take from the toolchain, are the fields of `BuildConfiguration`.
* The `typedef`s of `largeVis.h` are constants of type `CType`.
* The OpenMP runtime is the state `OmpState`; `omp_set_num_threads` is the
  OpenMP routine writing its `nthreads-var` control variable.
* `Rcpp::Nullable<Rcpp::IntegerVector>` is `Option (List Int)`: `none` is R's
  `NULL`, the elements are C `int`s (every theorem below is proved for all of
  `Int`, hence for the 32-bit range).  Reading an element is a partial
  operation: the source does not test the length before `[0]`.
-/

namespace Conos

/-! ## Build configuration and `largeVis.h` -/

/-- What the toolchain fixes before the two files are compiled. -/
structure BuildConfiguration where
  /-- Whether the preprocessor symbol `_OPENMP` is defined. -/
  _OPENMP : Bool
  /-- Value of `sizeof(arma::sword)` in bytes. -/
  sizeof_sword : Nat
  /-- Value of `sizeof(arma::uword)` in bytes. -/
  sizeof_uword : Nat
  /-- Value of `sizeof(double)` in bytes. -/
  sizeof_double : Nat
  /-- Value of `sizeof(unsigned int)` in bytes. -/
  sizeof_unsigned_int : Nat
deriving DecidableEq, Repr

/-- The C++ types that the right-hand sides of the `typedef`s of `largeVis.h` name. -/
inductive CType where
  | double
  | sword
  | uword
  | unsigned_int
deriving DecidableEq, Repr

/-- Source: `typedef double distancetype;` -/
def distancetype : CType := CType.double
/-- Source: `typedef double coordinatetype;` -/
def coordinatetype : CType := CType.double
/-- Source: `typedef sword vertexidxtype;` -/
def vertexidxtype : CType := CType.sword
/-- Source: `typedef sword edgeidxtype;` -/
def edgeidxtype : CType := CType.sword
/-- Source: `typedef uword iterationtype;` -/
def iterationtype : CType := CType.uword
/-- Source: `typedef unsigned int dimidxtype;` -/
def dimidxtype : CType := CType.unsigned_int
/-- Source: `typedef unsigned int kidxtype;` -/
def kidxtype : CType := CType.unsigned_int

/-- The `sizeof` operator, in bytes, under a build configuration. -/
def sizeof (cfg : BuildConfiguration) : CType → Nat
  | CType.double => cfg.sizeof_double
  | CType.sword => cfg.sizeof_sword
  | CType.uword => cfg.sizeof_uword
  | CType.unsigned_int => cfg.sizeof_unsigned_int

/-- Whether a type is a signed integer type (`sword` is Armadillo's signed word). -/
def CType.isSignedInteger : CType → Bool
  | CType.sword => true
  | CType.double => false
  | CType.uword => false
  | CType.unsigned_int => false

/-- The functions the two files declare or define. -/
inductive Symbol where
  | checkCRAN
  | checkBits
  | checkOpenMP
deriving DecidableEq, Repr

/-- Function declarations of `largeVis.h`: the prototype of `checkCRAN` stands
between `#ifdef _OPENMP` and `#endif` (lines 29-31); nothing else is declared. -/
def largeVis_h_declares (cfg : BuildConfiguration) : List Symbol :=
  if cfg._OPENMP then [Symbol.checkCRAN] else []

/-- Function definitions of `checkfunctions.cpp`: `checkCRAN` stands between
`#ifdef _OPENMP` and `#endif` (lines 10-17), the two probes are unconditional. -/
def checkfunctions_cpp_defines (cfg : BuildConfiguration) : List Symbol :=
  (if cfg._OPENMP then [Symbol.checkCRAN] else []) ++ [Symbol.checkBits, Symbol.checkOpenMP]

/-! ## The OpenMP runtime and Rcpp values -/

/-- Process-wide scheduler state: the `nthreads-var` control variable. -/
structure OmpState where
  nthreads_var : Int
deriving DecidableEq, Repr

/-- OpenMP routine `omp_set_num_threads`: writes `nthreads-var`. -/
def omp_set_num_threads (num_threads : Int) (_s : OmpState) : OmpState :=
  OmpState.mk num_threads

/-- OpenMP routine `omp_get_max_threads`: reads `nthreads-var`. -/
def omp_get_max_threads (s : OmpState) : Int :=
  s.nthreads_var

/-- An `Rcpp::IntegerVector`: a finite sequence of C `int`s. -/
abbrev IntegerVector := List Int

/-- An `Rcpp::Nullable<T>`: R's `NULL` or a value. -/
abbrev Nullable (α : Type) := Option α

/-- R's missing integer, the least 32-bit `int`. -/
def NA_INTEGER : Int := -2147483648

/-- How a call can fail. -/
inductive Failure where
  /-- An element was read at an index that is not below the length. -/
  | index_out_of_bounds
deriving DecidableEq, Repr

/-- Element access `v[i]` of an `IntegerVector`. -/
def IntegerVector.index (v : IntegerVector) (i : Nat) : Except Failure Int :=
  match v.get? i with
  | some x => Except.ok x
  | none => Except.error Failure.index_out_of_bounds

/-! ## `checkfunctions.cpp` -/

/-- Source `checkCRAN` (lines 11-16): when `threads.isNotNull()`, it reads
`int nthreads = IntegerVector(threads)[0];` and then runs
`if (nthreads > 0) omp_set_num_threads(nthreads);`.  A null argument skips both. -/
def checkCRAN (threads : Nullable IntegerVector) (s : OmpState) : Except Failure OmpState :=
  match threads with
  | none => Except.ok s
  | some v =>
    match IntegerVector.index v 0 with
    | Except.error e => Except.error e
    | Except.ok nthreads =>
      if nthreads > 0 then Except.ok (omp_set_num_threads nthreads s) else Except.ok s

/-- Source `checkBits` (lines 20-23):
`if (sizeof( vertexidxtype ) == 8) return true; else return false;` -/
def checkBits (cfg : BuildConfiguration) : Bool :=
  if sizeof cfg vertexidxtype = 8 then true else false

/-- Source `checkOpenMP` (lines 26-32): `return true` under `#ifdef _OPENMP`,
`return false` under `#else`. -/
def checkOpenMP (cfg : BuildConfiguration) : Bool :=
  if cfg._OPENMP then true else false

/-- A call of `checkBits()` in state-passing form: the body reads and writes no
scheduler state. -/
def checkBits_call (cfg : BuildConfiguration) (s : OmpState) : Bool × OmpState :=
  (checkBits cfg, s)

/-- A call of `checkOpenMP()` in state-passing form: the body reads and writes
no scheduler state. -/
def checkOpenMP_call (cfg : BuildConfiguration) (s : OmpState) : Bool × OmpState :=
  (checkOpenMP cfg, s)

/-- A finite sequence of `checkCRAN` calls, run in order; a failing call ends the run. -/
def runCRAN : List (Nullable IntegerVector) → OmpState → Except Failure OmpState
  | [], s => Except.ok s
  | threads :: rest, s =>
    match checkCRAN threads s with
    | Except.error e => Except.error e
    | Except.ok s1 => runCRAN rest s1

/-! ## Definitions that follow the specification -/

/-- The first element of an argument that is present with first element `> 0`. -/
def positiveFirst : Nullable IntegerVector → Option Int
  | some (n :: _) => if n > 0 then some n else none
  | some [] => none
  | none => none

/-- The specification of a sequence of calls, in its words: the worker count is
the first element of the last call whose argument was present with first
element `> 0`, and the initial count if there is no such call. -/
def lastWriteWins_spec (calls : List (Nullable IntegerVector)) (initial : Int) : Int :=
  ((calls.filterMap positiveFirst).getLast?).getD initial

/-- Whether an argument is absent or has a first element. -/
def hasFirst : Nullable IntegerVector → Bool
  | none => true
  | some [] => false
  | some (_ :: _) => true

/-- Equality of call results is decidable. -/
instance decEqResult : DecidableEq (Except Failure OmpState) := fun a b =>
  match a, b with
  | Except.ok x, Except.ok y =>
    if h : x = y then isTrue (congrArg Except.ok h)
    else isFalse (fun h2 => h (Except.ok.inj h2))
  | Except.error x, Except.error y =>
    if h : x = y then isTrue (congrArg Except.error h)
    else isFalse (fun h2 => h (Except.error.inj h2))
  | Except.ok _, Except.error _ => isFalse (fun h => Except.noConfusion h)
  | Except.error _, Except.ok _ => isFalse (fun h => Except.noConfusion h)

/-- A 64-bit OpenMP build. -/
def cfg_wide_parallel : BuildConfiguration := BuildConfiguration.mk true 8 8 8 4

/-- A 32-bit serial build. -/
def cfg_narrow_serial : BuildConfiguration := BuildConfiguration.mk false 4 4 8 4

/-! ## Lemmas about `checkCRAN` -/

/-- Reading index 0 of a non-empty vector gives its head. -/
theorem index_zero_cons (n : Int) (rest : IntegerVector) :
    IntegerVector.index (n :: rest) 0 = Except.ok n := rfl

/-- Reading index 0 of the empty vector is out of bounds. -/
theorem index_zero_nil :
    IntegerVector.index [] 0 = Except.error Failure.index_out_of_bounds := rfl

/-- One call on an argument that is absent or has a first element: the call
returns, and the new worker count is the positive first element when there is
one, the old count otherwise. -/
theorem checkCRAN_of_hasFirst (threads : Nullable IntegerVector) (s : OmpState)
    (h : hasFirst threads = true) :
    checkCRAN threads s
      = Except.ok (OmpState.mk ((positiveFirst threads).getD s.nthreads_var)) := by
  cases threads with
  | none => rfl
  | some v =>
    cases v with
    | nil => simp [hasFirst] at h
    | cons n rest =>
      by_cases hn : n > 0
      · simp [checkCRAN, index_zero_cons, positiveFirst, hn, omp_set_num_threads]
      · simp [checkCRAN, index_zero_cons, positiveFirst, hn]

/-- A call fails exactly on a present, empty vector. -/
theorem checkCRAN_error_iff (threads : Nullable IntegerVector) (s : OmpState) :
    checkCRAN threads s = Except.error Failure.index_out_of_bounds ↔ threads = some [] := by
  constructor
  · intro h
    cases threads with
    | none => simp [checkCRAN] at h
    | some v =>
      cases v with
      | nil => rfl
      | cons n rest =>
        have h2 := checkCRAN_of_hasFirst (some (n :: rest)) s rfl
        rw [h2] at h
        exact Except.noConfusion h
  · intro h
    subst h
    rfl

/-- The last element of a list with a default, after one more element in front. -/
theorem getLast?_cons_getD (x d : Int) (l : List Int) :
    ((x :: l).getLast?).getD d = (l.getLast?).getD x := by
  simp [List.getLast?_cons]

/-- Last-write-wins on well-formed sequences: when every argument is absent or
has a first element, the run returns and the final worker count is the one the
specification names. -/
theorem runCRAN_of_hasFirst (calls : List (Nullable IntegerVector)) :
    ∀ s : OmpState, (∀ t ∈ calls, hasFirst t = true) →
      runCRAN calls s = Except.ok (OmpState.mk (lastWriteWins_spec calls s.nthreads_var)) := by
  induction calls with
  | nil => intro s _; rfl
  | cons t rest ih =>
    intro s h
    have ht : hasFirst t = true := h t (List.mem_cons_self t rest)
    have hrest : ∀ u ∈ rest, hasFirst u = true :=
      fun u hu => h u (List.mem_cons_of_mem t hu)
    have hstep := checkCRAN_of_hasFirst t s ht
    have hrun := ih (OmpState.mk ((positiveFirst t).getD s.nthreads_var)) hrest
    simp only [runCRAN, hstep, hrun]
    congr 2
    unfold lastWriteWins_spec
    rw [List.filterMap_cons]
    cases hp : positiveFirst t with
    | none => simp
    | some n => simp [getLast?_cons_getD]

/-! ## Thread policy: `checkCRAN` -/

/-- C1: for every prior worker count and every present vector whose first
element `n` is positive, whatever follows it, `checkCRAN` returns and the
worker count is then exactly `n`. -/
theorem checkCRAN_sets_positive (s : OmpState) (n : Int) (rest : IntegerVector)
    (hn : n > 0) :
    checkCRAN (some (n :: rest)) s = Except.ok (OmpState.mk n)
      ∧ omp_get_max_threads (OmpState.mk n) = n := by
  refine ⟨?_, rfl⟩
  simp [checkCRAN, index_zero_cons, hn, omp_set_num_threads]

/-- C1 at `checkCRAN([5])` with four workers before the call. -/
theorem checkCRAN_sets_positive_witness :
    (5 : Int) > 0
      ∧ checkCRAN (some [5]) (OmpState.mk 4) = Except.ok (OmpState.mk 5)
      ∧ omp_get_max_threads (OmpState.mk 5) = 5 :=
  ⟨by decide, checkCRAN_sets_positive (OmpState.mk 4) 5 [] (by decide)⟩

/-- C2: for every present vector whose first element `n` satisfies `n <= 0`,
`checkCRAN` returns and leaves the worker count at its prior value. -/
theorem checkCRAN_ignores_nonpositive (s : OmpState) (n : Int) (rest : IntegerVector)
    (hn : n ≤ 0) :
    checkCRAN (some (n :: rest)) s = Except.ok s := by
  have h : ¬ n > 0 := not_lt.mpr hn
  simp [checkCRAN, index_zero_cons, h]

/-- C2 at R's `NA_integer_`, the least 32-bit integer. -/
theorem checkCRAN_ignores_nonpositive_witness :
    NA_INTEGER ≤ 0
      ∧ checkCRAN (some [NA_INTEGER]) (OmpState.mk 4) = Except.ok (OmpState.mk 4) :=
  ⟨by decide, checkCRAN_ignores_nonpositive (OmpState.mk 4) NA_INTEGER [] (by decide)⟩

/-- C3: for every prior worker count, `checkCRAN` with a null argument returns
and leaves the worker count at its prior value. -/
theorem checkCRAN_null_unchanged (s : OmpState) :
    checkCRAN none s = Except.ok s := rfl

/-- C4, at the input where the code departs from it: on a present, empty vector
`checkCRAN` reads index 0 out of bounds, for every prior worker count. -/
theorem checkCRAN_empty_out_of_bounds (s : OmpState) :
    checkCRAN (some []) s = Except.error Failure.index_out_of_bounds
      ∧ IntegerVector.index [] 0 = Except.error Failure.index_out_of_bounds
      ∧ ¬ ∃ s1 : OmpState, checkCRAN (some []) s = Except.ok s1 := by
  refine ⟨rfl, rfl, ?_⟩
  rintro ⟨s1, h⟩
  exact Except.noConfusion h

/-! ## Capability probes: `checkBits`, `checkOpenMP` -/

/-- C5: in every build configuration `checkBits()` is true exactly when
`vertexidxtype` occupies 8 bytes, and false at every other width, 4 bytes
among them. -/
theorem checkBits_iff_eight_bytes (cfg : BuildConfiguration) :
    (checkBits cfg = true ↔ sizeof cfg vertexidxtype = 8)
      ∧ (sizeof cfg vertexidxtype ≠ 8 → checkBits cfg = false)
      ∧ (sizeof cfg vertexidxtype = 4 → checkBits cfg = false) := by
  refine ⟨?_, ?_, ?_⟩
  · simp [checkBits]
  · intro h
    simp [checkBits, h]
  · intro h
    simp [checkBits, h]

/-- C5 at a 64-bit build and at a 32-bit build. -/
theorem checkBits_iff_eight_bytes_witness :
    sizeof cfg_wide_parallel vertexidxtype = 8 ∧ checkBits cfg_wide_parallel = true
      ∧ sizeof cfg_narrow_serial vertexidxtype = 4 ∧ checkBits cfg_narrow_serial = false :=
  ⟨rfl, (checkBits_iff_eight_bytes cfg_wide_parallel).1.mpr rfl,
    rfl, (checkBits_iff_eight_bytes cfg_narrow_serial).2.2 rfl⟩

/-- C6: in every build configuration `checkOpenMP()` is true exactly when
`_OPENMP` is defined, and false otherwise. -/
theorem checkOpenMP_iff_defined (cfg : BuildConfiguration) :
    (checkOpenMP cfg = true ↔ cfg._OPENMP = true)
      ∧ (cfg._OPENMP = false → checkOpenMP cfg = false) := by
  refine ⟨?_, ?_⟩
  · simp [checkOpenMP]
  · intro h
    simp [checkOpenMP, h]

/-- C6 at an OpenMP build and at a serial build. -/
theorem checkOpenMP_iff_defined_witness :
    cfg_wide_parallel._OPENMP = true ∧ checkOpenMP cfg_wide_parallel = true
      ∧ cfg_narrow_serial._OPENMP = false ∧ checkOpenMP cfg_narrow_serial = false :=
  ⟨rfl, (checkOpenMP_iff_defined cfg_wide_parallel).1.mpr rfl,
    rfl, (checkOpenMP_iff_defined cfg_narrow_serial).2 rfl⟩

/-- C7: in every build configuration `checkCRAN` is declared by the header and
defined by the source file exactly when `checkOpenMP()` is true; where
`checkOpenMP()` is false neither the prototype nor the definition exists. -/
theorem checkCRAN_exists_iff_checkOpenMP (cfg : BuildConfiguration) :
    (Symbol.checkCRAN ∈ checkfunctions_cpp_defines cfg ↔ checkOpenMP cfg = true)
      ∧ (Symbol.checkCRAN ∈ largeVis_h_declares cfg ↔ checkOpenMP cfg = true)
      ∧ (checkOpenMP cfg = false →
          Symbol.checkCRAN ∉ checkfunctions_cpp_defines cfg
            ∧ Symbol.checkCRAN ∉ largeVis_h_declares cfg) := by
  cases h : cfg._OPENMP <;>
    simp [checkfunctions_cpp_defines, largeVis_h_declares, checkOpenMP, h]

/-- C7 at a serial build, where the symbol is absent, and at an OpenMP build. -/
theorem checkCRAN_exists_iff_checkOpenMP_witness :
    checkOpenMP cfg_narrow_serial = false
      ∧ (Symbol.checkCRAN ∉ checkfunctions_cpp_defines cfg_narrow_serial
          ∧ Symbol.checkCRAN ∉ largeVis_h_declares cfg_narrow_serial)
      ∧ checkOpenMP cfg_wide_parallel = true
      ∧ Symbol.checkCRAN ∈ checkfunctions_cpp_defines cfg_wide_parallel :=
  ⟨rfl, (checkCRAN_exists_iff_checkOpenMP cfg_narrow_serial).2.2 rfl,
    rfl, (checkCRAN_exists_iff_checkOpenMP cfg_wide_parallel).1.mpr rfl⟩

/-- C8: in every build configuration the vertex-index type and the edge-index
type are the same signed integer type and so have the same byte width, and
`checkBits()` is true exactly when the edge-index type occupies 8 bytes. -/
theorem vertex_edge_same_width (cfg : BuildConfiguration) :
    sizeof cfg vertexidxtype = sizeof cfg edgeidxtype
      ∧ vertexidxtype = edgeidxtype
      ∧ CType.isSignedInteger vertexidxtype = true
      ∧ CType.isSignedInteger edgeidxtype = true
      ∧ (checkBits cfg = true ↔ sizeof cfg edgeidxtype = 8) := by
  refine ⟨rfl, rfl, rfl, rfl, ?_⟩
  simp [checkBits, sizeof, vertexidxtype, edgeidxtype]

/-- C9: for a fixed build configuration the two probes return the same boolean
at every worker-count state, leave the worker count as it was, and return
after any sequence of `checkCRAN` calls what they returned before it. -/
theorem probes_independent_of_state (cfg : BuildConfiguration) (s s1 : OmpState) :
    (checkBits_call cfg s).1 = (checkBits_call cfg s1).1
      ∧ (checkOpenMP_call cfg s).1 = (checkOpenMP_call cfg s1).1
      ∧ (checkBits_call cfg s).2 = s
      ∧ (checkOpenMP_call cfg s).2 = s
      ∧ (∀ (calls : List (Nullable IntegerVector)) (s2 : OmpState),
          runCRAN calls s = Except.ok s2 →
            (checkBits_call cfg s2).1 = (checkBits_call cfg s).1
              ∧ (checkOpenMP_call cfg s2).1 = (checkOpenMP_call cfg s).1) :=
  ⟨rfl, rfl, rfl, rfl, fun _ _ _ => ⟨rfl, rfl⟩⟩

/-- C9 around the run `checkCRAN([5]); checkCRAN(NULL); checkCRAN([7, 1])`. -/
theorem probes_independent_of_state_witness :
    runCRAN [some [5], none, some [7, 1]] (OmpState.mk 4) = Except.ok (OmpState.mk 7)
      ∧ (checkBits_call cfg_wide_parallel (OmpState.mk 7)).1
          = (checkBits_call cfg_wide_parallel (OmpState.mk 4)).1
      ∧ (checkOpenMP_call cfg_wide_parallel (OmpState.mk 7)).1
          = (checkOpenMP_call cfg_wide_parallel (OmpState.mk 4)).1 :=
  ⟨by decide,
    (probes_independent_of_state cfg_wide_parallel (OmpState.mk 4) (OmpState.mk 7)).2.2.2.2
      [some [5], none, some [7, 1]] (OmpState.mk 7) (by decide)⟩

/-! ## Sequences of `checkCRAN` calls -/

/-- C10, at the input where the code departs from it: in the run
`checkCRAN([5]); checkCRAN(integer(0))` from four workers the specification
names 5 as the final worker count, and the second call reads index 0 of an
empty vector, so the run has no final worker count. -/
theorem runCRAN_empty_out_of_bounds :
    lastWriteWins_spec [some [5], some []] 4 = 5
      ∧ runCRAN [some [5], some []] (OmpState.mk 4)
          = Except.error Failure.index_out_of_bounds
      ∧ runCRAN [some [5], some []] (OmpState.mk 4)
          ≠ Except.ok (OmpState.mk (lastWriteWins_spec [some [5], some []] 4)) := by
  refine ⟨by decide, by decide, by decide⟩

end Conos
